import Mathlib

/-!
# Verification of the nrfxlib modem helper module (`src/modem.rs`)

A shallow embedding of `src/modem.rs` from the `nrfxlib` repository, together
with proofs of the specified properties of its operations.

The module under verification drives an LTE modem through AT commands:
* `wait_for_lte` — subscribes to `+CEREG` unsolicited registration lines and
  loops over received chunks until a "connected" indication arrives;
* `on` / `flight_mode` / `off` — one-shot `AT+CFUN` commands;
* `set_system_mode` / `get_system_mode` — write and read back the
  `%XSYSTEMMODE` radio configuration.

Strings are modelled as lists of characters (`Str := List Char`); the spec's
decoding assumption is that the transport delivers clean single-byte ASCII
text, so byte indices and character indices coincide. Rust string primitives
used by the source (`str::lines`, `str::trim`, `str::starts_with`) are
translated explicitly below.

The module's collaborators — the AT socket transport and the command executor
`crate::at::send_at_command` — live outside the file set under verification
(in `src/at.rs` and the socket layer), so they are modelled from the spec
(§4.1 Command Executor, §6 Transport contract, §7 error taxonomy); each such
definition is marked `Modelled from the spec:` in its doc comment.
-/

deriving instance DecidableEq for Except

namespace Nrfxlib

/-- Character-list view of the (ASCII) strings handled by the module. -/
abbrev Str := List Char

/-- Modelled from the spec: the error taxonomy of §7 (`crate::Error` is not in
the verified file set). `CommandRejected` carries the terminal error line,
`UnrecognisedValue` is the variant `modem.rs` names explicitly. -/
inductive Error
  | TransportUnavailable
  | TransportWriteError
  | TransportReadError
  | CommandRejected (line : Str)
  | UnrecognisedValue
  deriving DecidableEq, Repr

/-- `SystemMode` from `src/modem.rs`: identifies which radios in the nRF9160
should be active. -/
inductive SystemMode
  | LteM
  | NbIot
  | GnssOnly
  | LteMAndGnss
  | NbIotAndGnss
  deriving DecidableEq, Repr

/-! ## Rust string primitives -/

/-- Rust `char::is_whitespace`, restricted to the ASCII whitespace characters
(the spec's transport contract only ever delivers ASCII text). -/
def isRustWhitespace (c : Char) : Bool :=
  c = ' ' || c = '\t' || c = '\n' || c = '\x0b' || c = '\x0c' || c = '\r'

/-- Rust `str::trim`: drop whitespace from both ends. -/
def trimChars (s : Str) : Str :=
  ((s.dropWhile isRustWhitespace).reverse.dropWhile isRustWhitespace).reverse

/-- Split a character list at every `'\n'` (the separators are consumed; a
trailing separator yields a trailing empty piece). -/
def splitOnNl : Str → List Str
  | [] => [[]]
  | c :: rest =>
    if c = '\n' then [] :: splitOnNl rest
    else
      match splitOnNl rest with
      | [] => [[c]]
      | l :: ls => (c :: l) :: ls

/-- Drop one trailing `'\r'` (the `"\r\n"` line-ending case of `str::lines`). -/
def stripCr (l : Str) : Str :=
  if l.getLast? = some '\r' then l.dropLast else l

/-- Rust `str::lines`: split at `'\n'`, drop the optional final empty piece
produced by a trailing newline, and strip one `'\r'` from each
`'\n'`-terminated piece. -/
def rustLines (s : Str) : List Str :=
  let parts := splitOnNl s
  if parts.getLast? = some [] then (parts.dropLast).map stripCr
  else (parts.dropLast).map stripCr ++ ((parts.getLast?).elim [] (fun l => [l]))

/-! ## Transport model -/

/-- One result of `skt.recv` on the AT transport: a read error, "no data
currently available" (`None` in the source), or a chunk of `n` received bytes
(`Some(n)`, the bytes being the list elements). -/
inductive RecvEvent
  | recvErr (e : Error)
  | noData
  | data (chunk : Str)
  deriving DecidableEq, Repr

/-- Observable interactions of the module with the transport. -/
inductive Action
  | openSocket
  | write (cmd : Str)
  | recv
  | wfe
  deriving DecidableEq, Repr

/-- Modelled from the spec: the transport contract of §6 — opening a session
and writing may fail; receiving produces the pre-determined trace of results
in `events`. -/
structure Transport where
  openResult : Option Error
  writeResult : Str → Option Error
  events : List RecvEvent

/-! ## `wait_for_lte` (src/modem.rs lines 68–94) -/

/-- The connected-indication prefixes from `wait_for_lte`, taken from the
Nordic `lte_link_control` driver. -/
def connectedIndications : List Str :=
  ["+CEREG: 1".toList, "+CEREG:1".toList, "+CEREG: 5".toList, "+CEREG:5".toList]

/-- The inner test of `wait_for_lte`'s scan: the line is trimmed and compared
by prefix (`line.starts_with(ind)`) against each connected indication. -/
def lineConnects (line : Str) : Bool :=
  connectedIndications.any fun ind => ind.isPrefixOf (trimChars line)

/-- The scan of one decoded text `s`: `for line in s.lines()` with the
trim-and-prefix test; `true` means the `break 'outer` is taken. -/
def chunkConnects (s : Str) : Bool :=
  (rustLines s).any lineConnects

/-- The slice `&buf[0..length - 1]` taken of a received chunk of `length`
bytes. `length` is a Rust `usize`, so `length - 1` underflows when
`length = 0`; `none` models that panic. -/
def scanChunk (chunk : Str) : Option Str :=
  if 1 ≤ chunk.length then some (chunk.take (chunk.length - 1)) else none

/-- Outcome of running `wait_for_lte`'s receive loop against a finite trace of
transport events: the loop broke out successfully, returned a receive error,
is still waiting (trace exhausted), or panicked on the slice underflow. -/
inductive WaitOutcome
  | connected
  | failed (e : Error)
  | waiting
  | panicked
  deriving DecidableEq, Repr

/-- The `'outer: loop` of `wait_for_lte`, run against a finite trace of
receive results, together with the transport interactions it performs: a
receive error propagates via `?`; `None` executes `cortex_m::asm::wfe()` and
retries; a chunk is sliced, decoded and scanned, breaking out on a connected
indication. -/
def waitLoopRun : List RecvEvent → WaitOutcome × List Action
  | [] => (.waiting, [])
  | .recvErr e :: _ => (.failed e, [.recv])
  | .noData :: rest =>
    ((waitLoopRun rest).1, .recv :: .wfe :: (waitLoopRun rest).2)
  | .data chunk :: rest =>
    match scanChunk chunk with
    | none => (.panicked, [.recv])
    | some s =>
      if chunkConnects s then (.connected, [.recv])
      else ((waitLoopRun rest).1, .recv :: (waitLoopRun rest).2)

/-- The subscription command written by `wait_for_lte`. -/
def ceregSubscribeCmd : Str := "AT+CEREG=2".toList

/-- `wait_for_lte` from `src/modem.rs`: open the AT socket, write the
subscription command `AT+CEREG=2`, then run the receive loop. Returns the
outcome and the trace of transport interactions. -/
def wait_for_lte (t : Transport) : WaitOutcome × List Action :=
  match t.openResult with
  | some e => (.failed e, [.openSocket])
  | none =>
    match t.writeResult ceregSubscribeCmd with
    | some e => (.failed e, [.openSocket, .write ceregSubscribeCmd])
    | none =>
      ((waitLoopRun t.events).1,
        .openSocket :: .write ceregSubscribeCmd :: (waitLoopRun t.events).2)

/-! ## The command executor (`crate::at::send_at_command`) -/

/-- Modelled from the spec: §4.1's per-chunk line processing of the Command
Executor (`crate::at::send_at_command` lives in `src/at.rs`, outside the
verified file set). Each line is trimmed; a line exactly `OK` terminates with
success, a line beginning `ERROR` terminates with `CommandRejected`, any other
non-empty line is handed to the caller's handler, threading its state. `inl`
means the chunk ended with the command still in progress. -/
def execLines {σ : Type} (handler : Str → σ → σ) :
    List Str → σ → σ ⊕ Except Error σ
  | [], s => .inl s
  | line :: rest, s =>
    let tl := trimChars line
    if tl = "OK".toList then .inr (.ok s)
    else if ("ERROR".toList).isPrefixOf tl then .inr (.error (.CommandRejected tl))
    else if tl = [] then execLines handler rest s
    else execLines handler rest (handler tl s)

/-- Modelled from the spec: §4.1's receive loop of the Command Executor. A
read error propagates; "no data" suspends (`wfe`) and retries; a data chunk is
split into lines and processed. `none` means the trace was exhausted with no
terminal line seen. -/
def execEvents {σ : Type} (handler : Str → σ → σ) :
    List RecvEvent → σ → Option (Except Error σ) × List Action
  | [], _ => (none, [])
  | .recvErr e :: _, _ => (some (.error e), [.recv])
  | .noData :: rest, s =>
    ((execEvents handler rest s).1, .recv :: .wfe :: (execEvents handler rest s).2)
  | .data chunk :: rest, s =>
    match execLines handler (rustLines chunk) s with
    | .inr r => (some r, [.recv])
    | .inl s2 =>
      ((execEvents handler rest s2).1, .recv :: (execEvents handler rest s2).2)

/-- Modelled from the spec: `crate::at::send_at_command` per §4.1 — open a
transport session, write the command, then collect response lines until the
terminal line, invoking `handler` on each informational line. Open and write
failures are returned immediately, before any receive. -/
def send_at_command {σ : Type} (t : Transport) (cmd : Str)
    (handler : Str → σ → σ) (init : σ) : Option (Except Error σ) × List Action :=
  match t.openResult with
  | some e => (some (.error e), [.openSocket])
  | none =>
    match t.writeResult cmd with
    | some e => (some (.error e), [.openSocket, .write cmd])
    | none =>
      ((execEvents handler t.events init).1,
        .openSocket :: .write cmd :: (execEvents handler t.events init).2)

/-! ## The simple `AT+CFUN` operations (src/modem.rs lines 96–117) -/

/-- `on` from `src/modem.rs`: `send_at_command("AT+CFUN=1", |_| {})`. -/
def «on» (t : Transport) : Option (Except Error Unit) × List Action :=
  send_at_command t ("AT+CFUN=1".toList) (fun _ s => s) ()

/-- `flight_mode` from `src/modem.rs`: `send_at_command("AT+CFUN=4", |_| {})`. -/
def flight_mode (t : Transport) : Option (Except Error Unit) × List Action :=
  send_at_command t ("AT+CFUN=4".toList) (fun _ s => s) ()

/-- `off` from `src/modem.rs`: `send_at_command("AT+CFUN=0", |_| {})`. -/
def off (t : Transport) : Option (Except Error Unit) × List Action :=
  send_at_command t ("AT+CFUN=0".toList) (fun _ s => s) ()

/-! ## `set_system_mode` and `get_system_mode` (src/modem.rs lines 119–151) -/

/-- The `match mode` of `set_system_mode`: the exact AT command for each
`SystemMode`. -/
def setSystemModeCommand : SystemMode → Str
  | .LteM => "AT%XSYSTEMMODE=1,0,0,0".toList
  | .NbIot => "AT%XSYSTEMMODE=0,1,0,0".toList
  | .GnssOnly => "AT%XSYSTEMMODE=0,0,1,0".toList
  | .LteMAndGnss => "AT%XSYSTEMMODE=1,0,1,0".toList
  | .NbIotAndGnss => "AT%XSYSTEMMODE=0,1,1,0".toList

/-- `set_system_mode` from `src/modem.rs`: send the mapped command with a
no-op line handler. -/
def set_system_mode (t : Transport) (mode : SystemMode) :
    Option (Except Error Unit) × List Action :=
  send_at_command t (setSystemModeCommand mode) (fun _ s => s) ()

/-- The closure of `get_system_mode`: classify the informational line `res` by
prefix against the five known triples (the trailing LTE/NB-IoT preference
digit is not inspected), overwriting `result` on a match and leaving it
unchanged otherwise. -/
def xsystemmodeHandler (res : Str) (result : Except Error SystemMode) :
    Except Error SystemMode :=
  if ("%XSYSTEMMODE: 1,0,0,".toList).isPrefixOf res then .ok .LteM
  else if ("%XSYSTEMMODE: 0,1,0,".toList).isPrefixOf res then .ok .NbIot
  else if ("%XSYSTEMMODE: 0,0,1,".toList).isPrefixOf res then .ok .GnssOnly
  else if ("%XSYSTEMMODE: 1,0,1,".toList).isPrefixOf res then .ok .LteMAndGnss
  else if ("%XSYSTEMMODE: 0,1,1,".toList).isPrefixOf res then .ok .NbIotAndGnss
  else result

/-- The same prefix classification as `xsystemmodeHandler`, as a partial map:
`some m` when a known triple prefix matches, `none` otherwise. -/
def classifySystemModeLine (res : Str) : Option SystemMode :=
  if ("%XSYSTEMMODE: 1,0,0,".toList).isPrefixOf res then some .LteM
  else if ("%XSYSTEMMODE: 0,1,0,".toList).isPrefixOf res then some .NbIot
  else if ("%XSYSTEMMODE: 0,0,1,".toList).isPrefixOf res then some .GnssOnly
  else if ("%XSYSTEMMODE: 1,0,1,".toList).isPrefixOf res then some .LteMAndGnss
  else if ("%XSYSTEMMODE: 0,1,1,".toList).isPrefixOf res then some .NbIotAndGnss
  else none

/-- `get_system_mode`'s accumulation over the informational lines delivered to
its handler, starting from `result = Err(Error::UnrecognisedValue)`. -/
def getSystemModeFromLines (lines : List Str) : Except Error SystemMode :=
  lines.foldl (fun acc l => xsystemmodeHandler l acc) (.error .UnrecognisedValue)

/-- `get_system_mode` from `src/modem.rs`: run `AT%XSYSTEMMODE?` through the
executor with the classifying handler, then return the accumulated `result`
(an executor failure propagates via `?` instead). -/
def get_system_mode (t : Transport) : Option (Except Error SystemMode) × List Action :=
  let r := send_at_command t ("AT%XSYSTEMMODE?".toList) xsystemmodeHandler
    (.error .UnrecognisedValue)
  (r.1.map fun x => x.bind id, r.2)

/-! ## Round-trip plumbing for claim C1 -/

/-- The field triple `a,b,c` that `set_system_mode` sends: the characters of
the mapped command after `AT%XSYSTEMMODE=` and before the trailing `,0`. -/
def sentTriple (m : SystemMode) : Str :=
  ((setSystemModeCommand m).drop 15).take 5

/-- The informational line a modem echoing the configuration set by
`set_system_mode m` produces on `AT%XSYSTEMMODE?`: the sent triple with an
arbitrary trailing preference digit `d`. -/
def echoLine (m : SystemMode) (d : Nat) : Str :=
  "%XSYSTEMMODE: ".toList ++ sentTriple m ++ [','] ++ [Nat.digitChar d]

/-- A transport whose single receive delivers the echoed configuration line
followed by the terminal `OK`. -/
def echoTransport (m : SystemMode) (d : Nat) : Transport :=
  ⟨none, fun _ => none, [.data (echoLine m d ++ '\n' :: "OK\n".toList)]⟩

/-! ## Sample transports used to instantiate the theorems -/

/-- A transport that opens and writes successfully and has no receive events. -/
def tOk : Transport := ⟨none, fun _ => none, []⟩

/-- A transport whose session cannot be opened. -/
def tOpenFail : Transport := ⟨some .TransportUnavailable, fun _ => none, []⟩

/-- A transport that opens but rejects every write. -/
def tWriteFail : Transport := ⟨none, fun _ => some .TransportWriteError, []⟩

/-! ## Helper lemmas -/

lemma isPrefixOf_self (l : Str) : l.isPrefixOf l = true := by
  rw [List.isPrefixOf_iff_prefix]

lemma xsystemmodeHandler_of_classify_some {l : Str} {m : SystemMode}
    (h : classifySystemModeLine l = some m) (acc : Except Error SystemMode) :
    xsystemmodeHandler l acc = .ok m := by
  unfold classifySystemModeLine at h
  unfold xsystemmodeHandler
  split_ifs at h ⊢ <;> simp_all

lemma xsystemmodeHandler_of_classify_none {l : Str}
    (h : classifySystemModeLine l = none) (acc : Except Error SystemMode) :
    xsystemmodeHandler l acc = acc := by
  unfold classifySystemModeLine at h
  unfold xsystemmodeHandler
  split_ifs at h ⊢
  rfl

lemma foldl_handler_of_all_none {lines : List Str}
    (h : ∀ l ∈ lines, classifySystemModeLine l = none) (acc : Except Error SystemMode) :
    lines.foldl (fun a l => xsystemmodeHandler l a) acc = acc := by
  induction lines generalizing acc with
  | nil => rfl
  | cons x rest ih =>
    rw [List.foldl_cons, xsystemmodeHandler_of_classify_none (h x (List.mem_cons_self x rest))]
    exact ih (fun l hl => h l (List.mem_cons_of_mem x hl)) acc

/-! ## Claims -/

/-- C1: for each of the five `SystemMode` values `m`, feeding the line a modem
echoing the configuration set by `set_system_mode m` would produce
(`%XSYSTEMMODE: a,b,c,d` with the triple `a,b,c` that `set_system_mode m`
sent and any trailing digit `d`) into `get_system_mode`'s line handler yields
`Ok m`; composing the full query over such a transport does the same. -/
theorem c1_set_get_roundtrip (m : SystemMode) (d : Nat) (hd : d < 10) :
    getSystemModeFromLines [echoLine m d] = .ok m ∧
    (get_system_mode (echoTransport m d)).1 = some (.ok m) := by
  cases m <;> (interval_cases d <;> exact ⟨by decide, by decide⟩)

theorem c1_set_get_roundtrip_witness :
    getSystemModeFromLines [echoLine .NbIotAndGnss 2] = .ok .NbIotAndGnss ∧
    (get_system_mode (echoTransport .NbIotAndGnss 2)).1 = some (.ok .NbIotAndGnss) :=
  c1_set_get_roundtrip .NbIotAndGnss 2 (by decide)

/-- C2: `wait_for_lte` breaks out of its receive loop on any of the four
connected indications appearing as a full trimmed line of a scanned chunk
(and the loop step returns `connected` on such a chunk), and the lines
`+CEREG: 0` and `+CEREG: 2` do not trigger the exit. -/
theorem c2_connected_indication_exits :
    (∀ (s ind : Str), ind ∈ connectedIndications →
      (∃ l ∈ rustLines s, trimChars l = ind) → chunkConnects s = true) ∧
    (∀ (rest : List RecvEvent) (chunk s : Str), scanChunk chunk = some s →
      chunkConnects s = true →
      waitLoopRun (.data chunk :: rest) = (.connected, [.recv])) ∧
    lineConnects ("+CEREG: 0".toList) = false ∧
    lineConnects ("+CEREG: 2".toList) = false := by
  refine ⟨?_, ?_, by decide, by decide⟩
  · rintro s ind hind ⟨l, hl, htrim⟩
    unfold chunkConnects
    rw [List.any_eq_true]
    refine ⟨l, hl, ?_⟩
    unfold lineConnects
    rw [List.any_eq_true]
    exact ⟨ind, hind, by rw [htrim]; exact isPrefixOf_self ind⟩
  · intro rest chunk s hs hc
    simp [waitLoopRun, hs, hc]

theorem c2_connected_indication_exits_witness :
    chunkConnects ("+CEREG: 5".toList) = true ∧
    waitLoopRun [.data ("+CEREG: 1\n".toList)] = (.connected, [.recv]) :=
  ⟨c2_connected_indication_exits.1 ("+CEREG: 5".toList) ("+CEREG: 5".toList)
      (by decide) (by decide),
   c2_connected_indication_exits.2.1 [] ("+CEREG: 1\n".toList) ("+CEREG: 1".toList)
      (by decide) (by decide)⟩

/-- C3: `get_system_mode` classifies by prefix, ignoring the trailing
preference digit: `%XSYSTEMMODE: 1,0,0,0` gives `LteM`,
`%XSYSTEMMODE: 0,1,1,2` gives `NbIotAndGnss`, `%XSYSTEMMODE: 9,9,9,9` gives
the `UnrecognisedValue` error, as does an empty sequence of informational
lines and, in general, any sequence in which no line matches a known prefix. -/
theorem c3_get_mode_classification :
    getSystemModeFromLines ["%XSYSTEMMODE: 1,0,0,0".toList] = .ok .LteM ∧
    getSystemModeFromLines ["%XSYSTEMMODE: 0,1,1,2".toList] = .ok .NbIotAndGnss ∧
    getSystemModeFromLines ["%XSYSTEMMODE: 9,9,9,9".toList] = .error .UnrecognisedValue ∧
    getSystemModeFromLines [] = .error .UnrecognisedValue ∧
    (∀ lines : List Str, (∀ l ∈ lines, classifySystemModeLine l = none) →
      getSystemModeFromLines lines = .error .UnrecognisedValue) := by
  refine ⟨by decide, by decide, by decide, rfl, ?_⟩
  intro lines h
  exact foldl_handler_of_all_none h _

theorem c3_get_mode_classification_witness :
    getSystemModeFromLines ["%XSYSTEMMODE: 9,9,9,9".toList, "junk".toList] =
      .error .UnrecognisedValue :=
  c3_get_mode_classification.2.2.2.2
    ["%XSYSTEMMODE: 9,9,9,9".toList, "junk".toList] (by decide)

/-- C4: `set_system_mode` maps each `SystemMode` to its exact AT command
string, the mapping is one-to-one, and (whenever the session opens) that very
command is the one written to the executor's transport. -/
theorem c4_set_mode_command_mapping :
    setSystemModeCommand .LteM = "AT%XSYSTEMMODE=1,0,0,0".toList ∧
    setSystemModeCommand .NbIot = "AT%XSYSTEMMODE=0,1,0,0".toList ∧
    setSystemModeCommand .GnssOnly = "AT%XSYSTEMMODE=0,0,1,0".toList ∧
    setSystemModeCommand .LteMAndGnss = "AT%XSYSTEMMODE=1,0,1,0".toList ∧
    setSystemModeCommand .NbIotAndGnss = "AT%XSYSTEMMODE=0,1,1,0".toList ∧
    (∀ m1 m2 : SystemMode,
      setSystemModeCommand m1 = setSystemModeCommand m2 → m1 = m2) ∧
    (∀ (t : Transport) (m : SystemMode), t.openResult = none →
      ((set_system_mode t m).2).take 2 =
        [.openSocket, .write (setSystemModeCommand m)]) := by
  refine ⟨rfl, rfl, rfl, rfl, rfl, ?_, ?_⟩
  · intro m1 m2
    cases m1 <;> cases m2 <;> decide
  · intro t m h
    simp only [set_system_mode, send_at_command, h]
    cases hw : t.writeResult (setSystemModeCommand m)
    all_goals simp [hw]

theorem c4_set_mode_command_mapping_witness :
    ((set_system_mode tOk .LteM).2).take 2 =
      [.openSocket, .write (setSystemModeCommand .LteM)] :=
  c4_set_mode_command_mapping.2.2.2.2.2.2 tOk .LteM rfl

/-- C5: the receive loop of `wait_for_lte` never exits on a "no data" result
alone — a trace of only `noData` results leaves it waiting, having performed
one receive and one `wfe` idle wait per result — and the loop only ever
reaches the `connected` outcome because some received chunk, once sliced,
actually contains a connected-indication line. -/
theorem c5_no_exit_on_no_data :
    (∀ events : List RecvEvent, (∀ ev ∈ events, ev = RecvEvent.noData) →
      waitLoopRun events =
        (.waiting, events.foldr (fun _ acc => Action.recv :: Action.wfe :: acc) [])) ∧
    (∀ events : List RecvEvent, (waitLoopRun events).1 = .connected →
      ∃ chunk s, RecvEvent.data chunk ∈ events ∧ scanChunk chunk = some s ∧
        chunkConnects s = true) := by
  constructor
  · intro events h
    induction events with
    | nil => rfl
    | cons ev rest ih =>
      have hev : ev = RecvEvent.noData := h ev (List.mem_cons_self ev rest)
      subst hev
      have hrest := ih (fun e he => h e (List.mem_cons_of_mem _ he))
      simp [waitLoopRun, hrest]
  · intro events h
    induction events with
    | nil => simp [waitLoopRun] at h
    | cons ev rest ih =>
      cases ev with
      | recvErr e => simp [waitLoopRun] at h
      | noData =>
        simp only [waitLoopRun] at h
        obtain ⟨c, s, hmem, hs, hc⟩ := ih h
        exact ⟨c, s, List.mem_cons_of_mem _ hmem, hs, hc⟩
      | data chunk =>
        cases hsc : scanChunk chunk with
        | none => simp [waitLoopRun, hsc] at h
        | some s =>
          by_cases hc : chunkConnects s = true
          · exact ⟨chunk, s, List.mem_cons_self _ _, hsc, hc⟩
          · simp only [waitLoopRun, hsc, hc, if_false] at h
            obtain ⟨c, s2, hmem, hs2, hc2⟩ := ih h
            exact ⟨c, s2, List.mem_cons_of_mem _ hmem, hs2, hc2⟩

theorem c5_no_exit_on_no_data_witness :
    waitLoopRun [RecvEvent.noData, RecvEvent.noData] =
      (.waiting, [.recv, .wfe, .recv, .wfe]) :=
  c5_no_exit_on_no_data.1 [RecvEvent.noData, RecvEvent.noData] (by decide)

/-- C6: no internal retries — the first failure is surfaced immediately. If
the AT socket fails to open, `wait_for_lte` returns that error having
performed no write and no receive; if the subscription write fails it returns
that error having performed no receive; a receive error exits the loop (and
the executor's loop) with that error; and every executor-based operation
returns the executor's first failure unchanged. -/
theorem c6_first_failure_propagates :
    (∀ (t : Transport) (e : Error), t.openResult = some e →
      wait_for_lte t = (.failed e, [.openSocket])) ∧
    (∀ (t : Transport) (e : Error), t.openResult = none →
      t.writeResult ceregSubscribeCmd = some e →
      wait_for_lte t = (.failed e, [.openSocket, .write ceregSubscribeCmd])) ∧
    (∀ (e : Error) (rest : List RecvEvent),
      waitLoopRun (.recvErr e :: rest) = (.failed e, [.recv])) ∧
    (∀ (σ : Type) (handler : Str → σ → σ) (e : Error) (rest : List RecvEvent) (s : σ),
      execEvents handler (.recvErr e :: rest) s = (some (.error e), [.recv])) ∧
    (∀ (t : Transport) (e : Error), t.openResult = some e →
      («on» t).1 = some (.error e) ∧ (flight_mode t).1 = some (.error e) ∧
      (off t).1 = some (.error e) ∧ (get_system_mode t).1 = some (.error e) ∧
      ∀ m, (set_system_mode t m).1 = some (.error e)) := by
  refine ⟨?_, ?_, ?_, ?_, ?_⟩
  · intro t e h
    simp [wait_for_lte, h]
  · intro t e h hw
    simp [wait_for_lte, h, hw]
  · intro e rest
    rfl
  · intro σ handler e rest s
    rfl
  · intro t e h
    refine ⟨?_, ?_, ?_, ?_, fun m => ?_⟩ <;>
      simp [«on», flight_mode, off, get_system_mode, set_system_mode,
        send_at_command, h, Except.bind]

theorem c6_first_failure_propagates_witness :
    wait_for_lte tOpenFail = (.failed .TransportUnavailable, [.openSocket]) ∧
    wait_for_lte tWriteFail =
      (.failed .TransportWriteError, [.openSocket, .write ceregSubscribeCmd]) ∧
    («on» tOpenFail).1 = some (.error .TransportUnavailable) :=
  ⟨c6_first_failure_propagates.1 tOpenFail .TransportUnavailable rfl,
   c6_first_failure_propagates.2.1 tWriteFail .TransportWriteError rfl rfl,
   (c6_first_failure_propagates.2.2.2.2 tOpenFail .TransportUnavailable rfl).1⟩

/-- C7: `wait_for_lte` opens the transport and writes exactly the
subscription command `AT+CEREG=2` before entering the receive loop; any run
that performs a receive begins with that open and that write. -/
theorem c7_subscribe_before_receive :
    ceregSubscribeCmd = "AT+CEREG=2".toList ∧
    (∀ t : Transport, t.openResult = none →
      t.writeResult ceregSubscribeCmd = none →
      wait_for_lte t = ((waitLoopRun t.events).1,
        .openSocket :: .write ceregSubscribeCmd :: (waitLoopRun t.events).2)) ∧
    (∀ t : Transport, Action.recv ∈ (wait_for_lte t).2 →
      ((wait_for_lte t).2).take 2 = [.openSocket, .write ceregSubscribeCmd]) := by
  refine ⟨rfl, ?_, ?_⟩
  · intro t h hw
    simp [wait_for_lte, h, hw]
  · intro t h
    cases ho : t.openResult with
    | some e => simp [wait_for_lte, ho] at h
    | none =>
      cases hw : t.writeResult ceregSubscribeCmd with
      | some e => simp [wait_for_lte, ho, hw]
      | none => simp [wait_for_lte, ho, hw]

theorem c7_subscribe_before_receive_witness :
    wait_for_lte tOk = ((waitLoopRun tOk.events).1,
      .openSocket :: .write ceregSubscribeCmd :: (waitLoopRun tOk.events).2) :=
  c7_subscribe_before_receive.2.1 tOk rfl rfl

/-- C8: on `Some(length)` the loop scans only the first `length - 1` bytes of
the chunk (a chunk of the shape `s ++ [terminator]` is scanned as `s`); a
zero-length chunk makes the slice bound `0..length-1` underflow (modelled as
the `panicked` outcome), and the loop never panics when every received chunk
is non-empty. -/
theorem c8_slice_underflow_on_empty_chunk :
    (∀ chunk : Str, 1 ≤ chunk.length →
      scanChunk chunk = some (chunk.take (chunk.length - 1))) ∧
    (∀ (s : Str) (c : Char), scanChunk (s ++ [c]) = some s) ∧
    scanChunk [] = none ∧
    (∀ rest : List RecvEvent,
      waitLoopRun (.data [] :: rest) = (.panicked, [.recv])) ∧
    (∀ events : List RecvEvent,
      (∀ chunk, RecvEvent.data chunk ∈ events → chunk ≠ []) →
      (waitLoopRun events).1 ≠ .panicked) := by
  refine ⟨?_, ?_, rfl, ?_, ?_⟩
  · intro chunk h
    simp [scanChunk, h]
  · intro s c
    have h1 : 1 ≤ (s ++ [c]).length := by simp
    rw [scanChunk, if_pos h1]
    simp
  · intro rest
    rfl
  · intro events h
    induction events with
    | nil => simp [waitLoopRun]
    | cons ev rest ih =>
      have hrest : ∀ chunk, RecvEvent.data chunk ∈ rest → chunk ≠ [] :=
        fun c hc => h c (List.mem_cons_of_mem _ hc)
      cases ev with
      | recvErr e => simp [waitLoopRun]
      | noData => simpa [waitLoopRun] using ih hrest
      | data chunk =>
        have hne : chunk ≠ [] := h chunk (List.mem_cons_self _ _)
        have hlen : 1 ≤ chunk.length := by
          cases chunk with
          | nil => exact absurd rfl hne
          | cons a l => simp
        have hs : scanChunk chunk = some (chunk.take (chunk.length - 1)) := by
          simp [scanChunk, hlen]
        by_cases hc : chunkConnects (chunk.take (chunk.length - 1)) = true
        · simp [waitLoopRun, hs, hc]
        · simpa [waitLoopRun, hs, hc] using ih hrest

theorem c8_slice_underflow_on_empty_chunk_witness :
    scanChunk ("ab".toList ++ ['\n']) = some ("ab".toList) ∧
    waitLoopRun [.data []] = (.panicked, [.recv]) ∧
    (waitLoopRun [RecvEvent.noData]).1 ≠ .panicked :=
  ⟨c8_slice_underflow_on_empty_chunk.2.1 ("ab".toList) '\n',
   c8_slice_underflow_on_empty_chunk.2.2.2.1 [],
   c8_slice_underflow_on_empty_chunk.2.2.2.2 [RecvEvent.noData]
     (by intro c hc; simp at hc)⟩

/-- C9: the exit test of `wait_for_lte` is prefix matching, not full-line
equality: any trimmed line extending a connected indication triggers the
exit, and in particular the line `+CEREG: 10` — which is none of the four
literal indications, even after trimming — ends the wait. -/
theorem c9_prefix_not_equality :
    (∀ line : Str,
      (∃ ind ∈ connectedIndications, ind.isPrefixOf (trimChars line) = true) →
      lineConnects line = true) ∧
    lineConnects ("+CEREG: 10".toList) = true ∧
    ("+CEREG: 10".toList ∉ connectedIndications) ∧
    (∀ ind ∈ connectedIndications, trimChars ("+CEREG: 10".toList) ≠ ind) ∧
    waitLoopRun [.data ("+CEREG: 10\n".toList)] = (.connected, [.recv]) := by
  refine ⟨?_, by decide, by decide, by decide, by decide⟩
  rintro line ⟨ind, hind, hpre⟩
  unfold lineConnects
  rw [List.any_eq_true]
  exact ⟨ind, hind, hpre⟩

theorem c9_prefix_not_equality_witness :
    lineConnects ("+CEREG: 511".toList) = true :=
  c9_prefix_not_equality.1 ("+CEREG: 511".toList) (by decide)

/-- C10: with several informational lines, the last line matching a known
prefix wins — a matching line overwrites whatever was accumulated, and a
non-matching line after a match leaves the earlier success intact. -/
theorem c10_last_match_wins :
    (∀ (ls : List Str) (l : Str) (m : SystemMode),
      classifySystemModeLine l = some m →
      getSystemModeFromLines (ls ++ [l]) = .ok m) ∧
    (∀ (ls : List Str) (l : Str) (m : SystemMode),
      getSystemModeFromLines ls = .ok m → classifySystemModeLine l = none →
      getSystemModeFromLines (ls ++ [l]) = .ok m) := by
  constructor
  · intro ls l m h
    unfold getSystemModeFromLines
    rw [List.foldl_append, List.foldl_cons, List.foldl_nil]
    exact xsystemmodeHandler_of_classify_some h _
  · intro ls l m h hnone
    unfold getSystemModeFromLines at h ⊢
    rw [List.foldl_append, List.foldl_cons, List.foldl_nil,
      xsystemmodeHandler_of_classify_none hnone]
    exact h

theorem c10_last_match_wins_witness :
    getSystemModeFromLines
      ["%XSYSTEMMODE: 1,0,0,0".toList, "%XSYSTEMMODE: 0,1,1,2".toList] =
      .ok .NbIotAndGnss ∧
    getSystemModeFromLines
      ["%XSYSTEMMODE: 0,0,1,0".toList, "%XSYSTEMMODE: 9,9,9,9".toList] =
      .ok .GnssOnly :=
  ⟨c10_last_match_wins.1 ["%XSYSTEMMODE: 1,0,0,0".toList]
      ("%XSYSTEMMODE: 0,1,1,2".toList) .NbIotAndGnss (by decide),
   c10_last_match_wins.2 ["%XSYSTEMMODE: 0,0,1,0".toList]
      ("%XSYSTEMMODE: 9,9,9,9".toList) .GnssOnly (by decide) (by decide)⟩

end Nrfxlib
